import Mathlib

/-
Shallow embedding of the smartmold_pilot glass-card component family.

Embedded sources:
  * src/MusicPlayer.jsx  — the playback card: a two-state machine (the boolean
    isPlaying, true = Playing / false = Idle), a progress value, the
    onPlayChange notification callback, keyboard normalization and ARIA output.
  * src/GlassCard.jsx    — the base shell: the opacityMap / variantClasses
    lookup tables with fallback to the standard / default entries.
  * FrostedGlassPanel (src/unnamed/part_007) — the alternate shell: the
    opacityConfig / sizeConfig lookup tables, the variant-prefixed config key
    and its fallback chain.

Conventions: CSS alpha values are stored in hundredths (rgba alpha 0.15 ↦ 15,
Tailwind bg-white/45 ↦ 45), blur radii and offsets in pixels, so that every
field is a Nat/Int and every stated property is decidable.  The notification
callback is modelled by returning the list of payloads emitted by a handler
call (the callback itself is external, fire-and-forget, no return value).
-/

/-- State owned by MusicPlayer (src/MusicPlayer.jsx lines 43–44):
`useState(false)` for isPlaying and `useState(progress)` for currentProgress.
true encodes the Playing status, false the Idle status. -/
structure PlayerState where
  isPlaying : Bool
  currentProgress : Int
  deriving DecidableEq, Repr

/-- Initial state of a freshly constructed playback card: Idle, and the
caller-supplied initial progress stored as-is (`useState(progress)`). -/
def initPlayer (progress : Int) : PlayerState :=
  ⟨false, progress⟩

/-- src/MusicPlayer.jsx `handlePlayToggle` (lines 50–56): flips isPlaying and
invokes onPlayChange with the new value `!isPlaying`.  The returned list is
the sequence of onPlayChange payloads emitted by this call. -/
def handlePlayToggle (s : PlayerState) : PlayerState × List Bool :=
  ({ s with isPlaying := !s.isPlaying }, [!s.isPlaying])

/-- src/MusicPlayer.jsx `handleKeyDown` (lines 61–66): `e.code === 'Space' ||
e.code === 'Enter'` triggers the same `handlePlayToggle` as a pointer click;
every other key code is left unhandled (no state change, no callback). -/
def handleKeyDown (code : String) (s : PlayerState) : PlayerState × List Bool :=
  if code = "Space" ∨ code = "Enter" then handlePlayToggle s else (s, [])

/-- The clamp on line 77 of src/MusicPlayer.jsx:
`Math.max(0, Math.min(100, newProgress))`. -/
def clampProgress (v : Int) : Int :=
  max 0 (min 100 v)

/-- src/MusicPlayer.jsx `handleProgressClick` (lines 71–78): stores the
clamped value into currentProgress; does not touch isPlaying and emits no
onPlayChange payload.  The geometric computation of `newProgress` from the
pointer position (line 74–76) is abstracted into the integer argument `v`,
the value reaching the clamp. -/
def handleProgressClick (v : Int) (s : PlayerState) : PlayerState × List Bool :=
  ({ s with currentProgress := clampProgress v }, [])

/-- The ARIA range triple of the progressbar (src/MusicPlayer.jsx lines
107–109): aria-valuenow = currentProgress, aria-valuemin = 0,
aria-valuemax = 100. -/
def progressTriple (s : PlayerState) : Int × Int × Int :=
  (s.currentProgress, 0, 100)

/-- aria-pressed of the play/pause button (line 144): `aria-pressed={isPlaying}`. -/
def ariaPressed (s : PlayerState) : Bool :=
  s.isPlaying

/-- aria-label of the play/pause button (line 145). -/
def buttonAriaLabel (s : PlayerState) : String :=
  if s.isPlaying then "暂停播放" else "开始播放"

/-- Text of the aria-live region (lines 161–163). -/
def liveRegionText (s : PlayerState) : String :=
  if s.isPlaying then "正在播放" else "已暂停"

/-- A playback card instance: the GlassCard opacity/tier axis it is hosted on
(orthogonal to playback — MusicPlayer passes styling props through to
GlassCard untouched by the player handlers) together with the player state. -/
structure CardState where
  opacity : String
  player : PlayerState
  deriving DecidableEq, Repr

/-- `handlePlayToggle` lifted to a card instance: the styling axis is not
read or written by the toggle handler. -/
def cardToggle (c : CardState) : CardState × List Bool :=
  let r := handlePlayToggle c.player
  ({ c with player := r.1 }, r.2)

/-- C1: for every tier/opacity value and every initial progress, calling
toggle() twice starting from Idle returns the card to Idle, and onPlayChange
fires exactly twice, with the status resulting from each toggle: first the new
status Playing (true), then the new status Idle (false). -/
theorem toggle_twice_from_idle (op : String) (p : Int) :
    ((cardToggle (cardToggle ⟨op, initPlayer p⟩).1).1.player.isPlaying = false) ∧
    ((cardToggle (cardToggle ⟨op, initPlayer p⟩).1).1.opacity = op) ∧
    ((cardToggle ⟨op, initPlayer p⟩).2
      ++ (cardToggle (cardToggle ⟨op, initPlayer p⟩).1).2 = [true, false]) := by
  refine ⟨rfl, rfl, rfl⟩

/-- C2: Space and Enter produce exactly the transition and callback payload of
a pointer click on the play/pause button, for every reachable state; every
other key code leaves the state unchanged and emits no notification. -/
theorem keyboard_pointer_equivalence (s : PlayerState) (code : String)
    (h1 : code ≠ "Space") (h2 : code ≠ "Enter") :
    handleKeyDown "Space" s = handlePlayToggle s ∧
    handleKeyDown "Enter" s = handlePlayToggle s ∧
    handleKeyDown code s = (s, []) := by
  refine ⟨by simp [handleKeyDown], by simp [handleKeyDown], by simp [handleKeyDown, h1, h2]⟩

/-- Witness for C2 at concrete inputs: the unhandled key "KeyA" on the initial
state, next to the two confirm keys. -/
theorem keyboard_pointer_equivalence_witness :
    (("KeyA" : String) ≠ "Space") ∧ (("KeyA" : String) ≠ "Enter") ∧
    (handleKeyDown "Space" (initPlayer 60) = handlePlayToggle (initPlayer 60) ∧
     handleKeyDown "Enter" (initPlayer 60) = handlePlayToggle (initPlayer 60) ∧
     handleKeyDown "KeyA" (initPlayer 60) = (initPlayer 60, [])) :=
  ⟨by decide, by decide,
   keyboard_pointer_equivalence (initPlayer 60) "KeyA" (by decide) (by decide)⟩

/-- C3: the progress clamp maps v to 0 when v < 0, to 100 when v > 100, and to
exactly v when 0 ≤ v ≤ 100. -/
theorem setProgress_clamps (v : Int) :
    (v < 0 → clampProgress v = 0) ∧
    (100 < v → clampProgress v = 100) ∧
    (0 ≤ v → v ≤ 100 → clampProgress v = v) := by
  unfold clampProgress
  refine ⟨fun h => ?_, fun h => ?_, fun h1 h2 => ?_⟩ <;> omega

/-- Witness for C3 at the spec's concrete inputs: -5 ↦ 0, 150 ↦ 100, 42 ↦ 42. -/
theorem setProgress_clamps_witness :
    clampProgress (-5) = 0 ∧ clampProgress 150 = 100 ∧ clampProgress 42 = 42 :=
  ⟨(setProgress_clamps (-5)).1 (by decide),
   (setProgress_clamps 150).2.1 (by decide),
   (setProgress_clamps 42).2.2 (by decide) (by decide)⟩

/-- C4: for every state and input value, handleProgressClick changes only
currentProgress — the status is untouched and no onPlayChange payload is
emitted; in particular, after toggling to Playing, setting progress 30 yields
the ARIA range triple (30, 0, 100) with the status still Playing. -/
theorem setProgress_frame (s : PlayerState) (v : Int) :
    ((handleProgressClick v s).1.isPlaying = s.isPlaying) ∧
    ((handleProgressClick v s).2 = []) ∧
    (progressTriple (handleProgressClick 30 (handlePlayToggle (initPlayer 60)).1).1
       = (30, 0, 100) ∧
     (handleProgressClick 30 (handlePlayToggle (initPlayer 60)).1).1.isPlaying = true) := by
  exact ⟨rfl, rfl, by decide⟩

/-- C7: the pressed indicator, the button label and the live-region text are
pure functions of the playback status alone (two states agreeing on the status
render identical attributes), and after any toggle the rendered output
reflects the new status consistently: aria-pressed is true exactly when the
live region announces Playing. -/
theorem aria_pure_and_sync (s t : PlayerState) (h : s.isPlaying = t.isPlaying) :
    ((ariaPressed s, buttonAriaLabel s, liveRegionText s)
       = (ariaPressed t, buttonAriaLabel t, liveRegionText t)) ∧
    (ariaPressed (handlePlayToggle s).1 = (handlePlayToggle s).1.isPlaying) ∧
    (ariaPressed (handlePlayToggle s).1 = true ↔
       liveRegionText (handlePlayToggle s).1 = "正在播放") := by
  refine ⟨by simp [ariaPressed, buttonAriaLabel, liveRegionText, h], rfl, ?_⟩
  cases hs : s.isPlaying <;>
    simp [ariaPressed, liveRegionText, handlePlayToggle, hs]

/-- Witness for C7 at concrete states: two distinct states with equal status. -/
theorem aria_pure_and_sync_witness :
    ((initPlayer 60).isPlaying = (initPlayer 30).isPlaying) ∧
    (((ariaPressed (initPlayer 60), buttonAriaLabel (initPlayer 60),
        liveRegionText (initPlayer 60))
       = (ariaPressed (initPlayer 30), buttonAriaLabel (initPlayer 30),
          liveRegionText (initPlayer 30))) ∧
     (ariaPressed (handlePlayToggle (initPlayer 60)).1
        = (handlePlayToggle (initPlayer 60)).1.isPlaying) ∧
     (ariaPressed (handlePlayToggle (initPlayer 60)).1 = true ↔
        liveRegionText (handlePlayToggle (initPlayer 60)).1 = "正在播放")) :=
  ⟨rfl, aria_pure_and_sync (initPlayer 60) (initPlayer 30) rfl⟩

/-- C10: the caller-supplied initial progress is stored and exposed unclamped
(aria-valuenow equals exactly the supplied value, also outside [0,100]); the
clamp is applied only by a later handleProgressClick. -/
theorem initial_progress_unclamped (p : Int) :
    ((initPlayer p).currentProgress = p) ∧
    (progressTriple (initPlayer p) = (p, 0, 100)) ∧
    ((initPlayer p).isPlaying = false) ∧
    (∀ v : Int,
      (handleProgressClick v (initPlayer p)).1.currentProgress = clampProgress v) := by
  exact ⟨rfl, rfl, rfl, fun v => rfl⟩

/-- One entry of the GlassCard opacity map (src/GlassCard.jsx lines 51–96):
Tailwind translucency percentages of the background and the three border
channels, the shadow rgba alpha (hundredths) and the hover deltas. -/
structure GlassOpacity where
  bg : Nat
  border : Nat
  borderB : Nat
  borderR : Nat
  shadowAlpha : Nat
  hoverBg : Nat
  hoverShadowAlpha : Nat
  deriving DecidableEq, Repr

/-- The `standard` entry of opacityMap. -/
def stdOpacity : GlassOpacity :=
  ⟨65, 80, 40, 40, 7, 75, 12⟩

/-- src/GlassCard.jsx `opacityMap` (lines 51–96): light / standard / dark /
opaque; every other key is absent. -/
def opacityMap : String → Option GlassOpacity
  | "light" => some ⟨45, 60, 30, 30, 4, 55, 8⟩
  | "standard" => some stdOpacity
  | "dark" => some ⟨85, 95, 70, 70, 10, 90, 14⟩
  | "opaque" => some ⟨95, 100, 80, 80, 12, 98, 15⟩
  | _ => none

/-- src/GlassCard.jsx line 98: `opacityMap[opacity] || opacityMap.standard`. -/
def currentOpacity (opacity : String) : GlassOpacity :=
  (opacityMap opacity).getD stdOpacity

/-- The base shell's blur: `backdrop-blur-[16px]` (line 104), the same 16px
for every opacity tier. -/
def glassBlurPx : Nat := 16

/-- src/GlassCard.jsx `variantClasses` (lines 127–131). -/
def variantClasses : String → Option (List String)
  | "default" => some ["w-full", "sm:w-80"]
  | "small" => some ["w-36", "h-36"]
  | "large" => some ["w-full", "sm:w-96"]
  | _ => none

/-- src/GlassCard.jsx line 145: `variantClasses[variant] || variantClasses.default`. -/
def resolvedVariantClasses (variant : String) : List String :=
  (variantClasses variant).getD ["w-full", "sm:w-80"]

/-- The observable render output of a GlassCard relevant to construction:
the resolved opacity entry, the resolved size classes and the children slot
(none when the required children prop was omitted). -/
structure RenderedCard where
  opacity : GlassOpacity
  sizeClasses : List String
  content : Option String
  deriving DecidableEq, Repr

/-- src/GlassCard.jsx render (lines 150–161): the component body
unconditionally returns the article element with the children slot — there is
no throw path, so the Except error branch is never produced. -/
def glassCardRender (children : Option String) (variant opacity : String) :
    Except String RenderedCard :=
  .ok ⟨currentOpacity opacity, resolvedVariantClasses variant, children⟩

/-- src/GlassCard.jsx propTypes (lines 167–176): `children:
PropTypes.node.isRequired` — omitting children is a PropTypes validation
violation (a dev-mode console warning), the only required prop. -/
def propTypesViolations (children : Option String) : List String :=
  if children.isNone then ["children"] else []

/-- One layer of a CSS box-shadow list of FrostedGlassPanel: inset flag,
offsets and blur in px, colour channel (white = rgba(255,255,255,·),
otherwise rgba(0,0,0,·)) and alpha in hundredths. -/
structure ShadowLayer where
  inset : Bool
  offsetX : Int
  offsetY : Int
  blurPx : Nat
  white : Bool
  alpha : Nat
  deriving DecidableEq, Repr

/-- One entry of the FrostedGlassPanel opacityConfig: background and border
alpha in hundredths, blur in px, and the parsed box-shadow layer list. -/
structure FrostConfig where
  bg : Nat
  border : Nat
  blur : Nat
  shadow : List ShadowLayer
  deriving DecidableEq, Repr

/-- The legacy `standard` entry of opacityConfig (part_007 lines 529–534),
identical in value to `navStandard`. -/
def frostStandard : FrostConfig :=
  ⟨25, 30, 12,
   [⟨false, 0, 20, 60, false, 40⟩, ⟨true, 0, 1, 0, true, 60⟩,
    ⟨true, 0, -1, 0, false, 20⟩, ⟨true, -2, -2, 8, true, 20⟩,
    ⟨true, 2, 2, 8, false, 10⟩]⟩

/-- FrostedGlassPanel `opacityConfig` (part_007 lines 483–547): the content-
and nav-prefixed entries plus the four legacy keys; every other key absent. -/
def opacityConfig : String → Option FrostConfig
  | "contentLight" => some ⟨8, 15, 4,
      [⟨false, 0, 8, 20, false, 15⟩, ⟨true, 0, 1, 0, true, 40⟩,
       ⟨true, 0, -1, 0, false, 8⟩, ⟨true, -1, -1, 4, true, 10⟩,
       ⟨true, 1, 1, 4, false, 4⟩]⟩
  | "contentStandard" => some ⟨12, 20, 6,
      [⟨false, 0, 10, 30, false, 20⟩, ⟨true, 0, 1, 0, true, 50⟩,
       ⟨true, 0, -1, 0, false, 10⟩, ⟨true, -1, -1, 5, true, 12⟩,
       ⟨true, 1, 1, 5, false, 5⟩]⟩
  | "contentDark" => some ⟨18, 25, 8,
      [⟨false, 0, 12, 35, false, 25⟩, ⟨true, 0, 1, 0, true, 60⟩,
       ⟨true, 0, -1, 0, false, 12⟩, ⟨true, -1, -1, 6, true, 15⟩,
       ⟨true, 1, 1, 6, false, 6⟩]⟩
  | "navLight" => some ⟨15, 25, 10,
      [⟨false, 0, 15, 40, false, 30⟩, ⟨true, 0, 1, 0, true, 50⟩,
       ⟨true, 0, -1, 0, false, 15⟩, ⟨true, -2, -2, 8, true, 15⟩,
       ⟨true, 2, 2, 8, false, 8⟩]⟩
  | "navStandard" => some ⟨25, 30, 12,
      [⟨false, 0, 20, 60, false, 40⟩, ⟨true, 0, 1, 0, true, 60⟩,
       ⟨true, 0, -1, 0, false, 20⟩, ⟨true, -2, -2, 8, true, 20⟩,
       ⟨true, 2, 2, 8, false, 10⟩]⟩
  | "navDark" => some ⟨35, 40, 14,
      [⟨false, 0, 25, 70, false, 45⟩, ⟨true, 0, 1, 0, true, 70⟩,
       ⟨true, 0, -1, 0, false, 25⟩, ⟨true, -2, -2, 10, true, 25⟩,
       ⟨true, 2, 2, 10, false, 12⟩]⟩
  | "light" => some ⟨15, 25, 10,
      [⟨false, 0, 15, 40, false, 30⟩, ⟨true, 0, 1, 0, true, 50⟩,
       ⟨true, 0, -1, 0, false, 15⟩, ⟨true, -2, -2, 8, true, 15⟩,
       ⟨true, 2, 2, 8, false, 8⟩]⟩
  | "standard" => some frostStandard
  | "dark" => some ⟨35, 40, 14,
      [⟨false, 0, 25, 70, false, 45⟩, ⟨true, 0, 1, 0, true, 70⟩,
       ⟨true, 0, -1, 0, false, 25⟩, ⟨true, -2, -2, 10, true, 25⟩,
       ⟨true, 2, 2, 10, false, 12⟩]⟩
  | "opaque" => some ⟨45, 50, 16,
      [⟨false, 0, 30, 80, false, 50⟩, ⟨true, 0, 1, 0, true, 80⟩,
       ⟨true, 0, -1, 0, false, 30⟩, ⟨true, -2, -2, 12, true, 30⟩,
       ⟨true, 2, 2, 12, false, 15⟩]⟩
  | _ => none

/-- `opacity.charAt(0).toUpperCase() + opacity.slice(1)` of part_007 line 572. -/
def capFirst (s : String) : String :=
  match s.data with
  | [] => ""
  | c :: cs => String.mk (c.toUpper :: cs)

/-- part_007 line 572: the variant-prefixed config key. -/
def frostedConfigKey (opacity variant : String) : String :=
  if variant = "nav" then "nav" ++ capFirst opacity else "content" ++ capFirst opacity

/-- part_007 line 573: `opacityConfig[configKey] || opacityConfig[opacity] ||
opacityConfig.standard`. -/
def frostedConfig (opacity variant : String) : FrostConfig :=
  ((opacityConfig (frostedConfigKey opacity variant)).orElse
    (fun _ => opacityConfig opacity)).getD frostStandard

/-- One entry of sizeConfig (part_007 lines 549–570): width kept verbatim
(the fullWidth entry is the string 100%), padding and corner radius in px. -/
structure SizeStyle where
  width : String
  padding : Nat
  borderRadius : Nat
  deriving DecidableEq, Repr

/-- FrostedGlassPanel `sizeConfig` (part_007 lines 549–570). -/
def sizeConfig : String → Option SizeStyle
  | "small" => some ⟨"280px", 20, 20⟩
  | "medium" => some ⟨"400px", 30, 25⟩
  | "large" => some ⟨"600px", 40, 30⟩
  | "fullWidth" => some ⟨"100%", 40, 25⟩
  | _ => none

/-- part_007 line 574: `sizeConfig[size] || sizeConfig.medium`. -/
def frostedSizeStyle (size : String) : SizeStyle :=
  (sizeConfig size).getD ⟨"400px", 30, 25⟩

/-- The fully resolved frosted-shell style: the three configuration axes
mapped to the opacity config and the size style (part_007 lines 572–591). -/
structure FrostedStyle where
  config : FrostConfig
  size : SizeStyle
  deriving DecidableEq, Repr

/-- resolve(tier, variant, size) of the alternate shell. -/
def frostedResolve (opacity variant size : String) : FrostedStyle :=
  ⟨frostedConfig opacity variant, frostedSizeStyle size⟩

/-- Counterexample to C5: at the claim's own input triple the frosted shell's
fallback for the unrecognized tier does not equal the resolution of the
documented default — frostedResolve with the unrecognized opacity falls back
to the legacy standard entry (background alpha 0.25, blur 12px), while
opacity standard under the default (non-nav) variant resolves through the
contentStandard entry (background alpha 0.12, blur 6px). -/
theorem bogus_tier_fallback_differs :
    frostedResolve "bogus-tier" "default" "medium"
      ≠ frostedResolve "standard" "default" "medium" := by decide

/-- C5 (amended): resolution is total (no error branch exists) and every
unrecognized value falls back to a fixed entry: the base shell's unrecognized
opacity resolves like standard and its unrecognized variant like default; the
frosted shell's unrecognized size resolves like medium and its unrecognized
variant like content; but the frosted shell's unrecognized opacity falls back
to the legacy standard entry, which equals the nav-variant standard
resolution, not the content/default-variant standard resolution. -/
theorem fallback_resolution :
    (currentOpacity "bogus-tier" = currentOpacity "standard") ∧
    (resolvedVariantClasses "bogus" = resolvedVariantClasses "default") ∧
    (frostedSizeStyle "bogus" = frostedSizeStyle "medium") ∧
    (frostedConfig "standard" "bogus-variant" = frostedConfig "standard" "content") ∧
    (frostedConfig "bogus-tier" "content" = frostedConfig "standard" "nav") ∧
    (frostedConfig "bogus-tier" "content" ≠ frostedConfig "standard" "content") := by
  decide

/-- C6: for any fixed variant (and size, which affects neither channel), the
tier order light < standard < dark < opaque yields non-decreasing background
alpha and non-decreasing blur in both shells; the base shell's blur is the
constant 16px across tiers. -/
theorem tier_monotonicity (variant : String) :
    ((currentOpacity "light").bg ≤ (currentOpacity "standard").bg ∧
     (currentOpacity "standard").bg ≤ (currentOpacity "dark").bg ∧
     (currentOpacity "dark").bg ≤ (currentOpacity "opaque").bg) ∧
    (glassBlurPx ≤ glassBlurPx) ∧
    ((frostedConfig "light" variant).bg ≤ (frostedConfig "standard" variant).bg ∧
     (frostedConfig "standard" variant).bg ≤ (frostedConfig "dark" variant).bg ∧
     (frostedConfig "dark" variant).bg ≤ (frostedConfig "opaque" variant).bg) ∧
    ((frostedConfig "light" variant).blur ≤ (frostedConfig "standard" variant).blur ∧
     (frostedConfig "standard" variant).blur ≤ (frostedConfig "dark" variant).blur ∧
     (frostedConfig "dark" variant).blur ≤ (frostedConfig "opaque" variant).blur) := by
  by_cases h : variant = "nav" <;>
    simp only [frostedConfig, frostedConfigKey, h, if_pos, if_neg, not_false_iff] <;>
    decide

/-- Counterexample to C8: the lowest frosted tier resolves to 5 shadow layers,
not 1, and the highest tier also resolves to 5 layers, exceeding the claimed
maximum of 3 (1 outer + 2 inset) — the count does not grow with the tier. -/
theorem shadow_count_exceeds_claim :
    ((frostedConfig "light" "content").shadow.length = 5) ∧
    ¬ ((frostedConfig "light" "content").shadow.length = 1) ∧
    ¬ ((frostedConfig "opaque" "content").shadow.length ≤ 3) := by decide

/-- C8 (amended): in the frosted shell every tier resolves to exactly 1 outer
shadow layer plus 4 inset layers, for any variant; the layer count is constant
across tiers (material thickness is conveyed by the growing offsets, blur
radii and alphas of the layers, not by adding layers), and the outer layer's
blur and alpha are non-decreasing with the tier. -/
theorem frosted_shadow_layers (variant : String) :
    (((frostedConfig "light" variant).shadow.filter (fun l => !l.inset)).length = 1 ∧
     ((frostedConfig "light" variant).shadow.filter (fun l => l.inset)).length = 4) ∧
    (((frostedConfig "standard" variant).shadow.filter (fun l => !l.inset)).length = 1 ∧
     ((frostedConfig "standard" variant).shadow.filter (fun l => l.inset)).length = 4) ∧
    (((frostedConfig "dark" variant).shadow.filter (fun l => !l.inset)).length = 1 ∧
     ((frostedConfig "dark" variant).shadow.filter (fun l => l.inset)).length = 4) ∧
    (((frostedConfig "opaque" variant).shadow.filter (fun l => !l.inset)).length = 1 ∧
     ((frostedConfig "opaque" variant).shadow.filter (fun l => l.inset)).length = 4) ∧
    ((frostedConfig "light" variant).shadow.length
       = (frostedConfig "opaque" variant).shadow.length) := by
  by_cases h : variant = "nav" <;>
    simp only [frostedConfig, frostedConfigKey, h, if_pos, if_neg, not_false_iff] <;>
    decide

/-- Counterexample to C9: constructing a GlassCard with the required children
omitted does not fail — the component body unconditionally renders, here
producing a fully styled card with an empty content slot. -/
theorem missing_children_not_fatal :
    ((glassCardRender none "default" "standard").isOk = true) ∧
    (glassCardRender none "default" "standard"
       = .ok ⟨stdOpacity, ["w-full", "sm:w-80"], none⟩) :=
  ⟨rfl, rfl⟩

/-- C9 (amended): omitting the required children prop is not a construction
failure: the card still renders (with an empty content slot), and the omission
is reported only as a PropTypes validation violation — a dev-mode console
warning naming the children prop — while a supplied children value yields no
violation. -/
theorem missing_children_renders_with_warning :
    ((glassCardRender none "default" "standard").isOk = true) ∧
    (propTypesViolations none = ["children"]) ∧
    (∀ c : String, propTypesViolations (some c) = [] ∧
      (glassCardRender (some c) "default" "standard").isOk = true) := by
  exact ⟨rfl, rfl, fun c => ⟨rfl, rfl⟩⟩
